import Mathlib

/-!
Shallow embedding of `src/main.go` (a two-endpoint HTTP relay forwarding
to the Telegram bot API and the Beehiiv subscription API).

Modelling conventions:
* The process environment (`os.Getenv`) is a function `String → String`;
  Go's `Getenv` returns `""` for an unset variable.
* The outbound HTTP call (`http.Post` / `client.Do`) is abstracted by an
  `HttpOutcome` oracle: either a transport error with a message, or a
  response carrying a status code.  Each forwarder also reports the
  outbound request it issued (URL, headers, JSON body), or `none` when it
  returned before issuing the call.
* JSON documents are the inductive `Json`; `encoding/json` decoding of a
  request body into a struct follows Go semantics: a malformed body fails,
  `null` into a struct leaves it zero-valued, object keys match struct
  field tags case-insensitively, unknown keys are ignored, a `null` value
  for a known key leaves the field unchanged, and a non-string value for a
  string field is a decode error.
* `json.Marshal` of a struct of strings cannot fail, so the marshal-error
  branches of the Go code are unreachable and have no counterpart here.
-/

namespace Api

/-- `Config` from main.go: bot credentials read once at startup. -/
structure Config where
  BotToken : String
  ChatID : String

/-- `TelegramMessage` from main.go, with its JSON field tags as names. -/
structure TelegramMessage where
  chat_id : String
  text : String
  parse_mode : String

/-- `MessageRequest` from main.go (the /send inbound body). -/
structure MessageRequest where
  message : String

/-- `SubscribeRequest` from main.go (the /subscribe inbound body).
Absent optional fields decode to `""`, Go's zero string. -/
structure SubscribeRequest where
  email : String
  utm_source : String
  utm_medium : String
  referring_site : String

/-- JSON documents (enough of the grammar for this program). -/
inductive Json where
  | null : Json
  | bool : Bool → Json
  | num : Int → Json
  | str : String → Json
  | arr : List Json → Json
  | obj : List (String × Json) → Json

/-- The process environment, as seen through `os.Getenv`. -/
def Env : Type := String → String

/-- An inbound request body: either undecodable bytes or a JSON document. -/
inductive Body where
  | malformed : Body
  | wellFormed : Json → Body

/-- Result of the single outbound HTTP call a handler may perform. -/
inductive HttpOutcome where
  | transportError : String → HttpOutcome
  | status : Nat → HttpOutcome

/-- The outbound request a forwarder issues to the third-party API. -/
structure OutboundCall where
  url : String
  headers : List (String × String)
  body : Json

/-- What a handler writes back: `http.Error` produces a plain-text body
with an explicit status, while `json.NewEncoder(w).Encode` writes a JSON
body without touching the status (so the implicit 200 stands). -/
inductive HttpResponse where
  | plainError : Nat → String → HttpResponse
  | jsonBody : Json → HttpResponse

/-- The HTTP status code actually sent with a response. -/
def HttpResponse.statusCode : HttpResponse → Nat
  | .plainError s _ => s
  | .jsonBody _ => 200

/-- ASCII lower-casing of one character (the JSON field tags at play are
all ASCII, so this models Go's case folding on the relevant inputs). -/
def foldChar (c : Char) : Char :=
  if 'A' ≤ c ∧ c ≤ 'Z' then Char.ofNat (c.toNat + 32) else c

/-- Go `encoding/json` matches an object key to a struct field tag
case-insensitively (exact matches and case-insensitive matches both bind). -/
def keyMatches (key field : String) : Bool :=
  key.data.map foldChar == field.data

/-- Fold the fields of a JSON object into a `MessageRequest`, following
Go unmarshalling: a matching key with a string value assigns the field,
a `null` value leaves it, any other value is a type error, unknown keys
are skipped, and later duplicates overwrite earlier ones. -/
def decodeMessageFields : List (String × Json) → MessageRequest → Option MessageRequest
  | [], acc => some acc
  | (k, v) :: rest, acc =>
    if keyMatches k "message" then
      match v with
      | .str s => decodeMessageFields rest { acc with message := s }
      | .null => decodeMessageFields rest acc
      | _ => none
    else
      decodeMessageFields rest acc

/-- `json.NewDecoder(r.Body).Decode(&req)` for a `MessageRequest`:
fails on malformed bytes or a non-object non-null document; `null`
leaves the zero value. -/
def decodeMessageRequest : Body → Option MessageRequest
  | .malformed => none
  | .wellFormed .null => some ⟨""⟩
  | .wellFormed (.obj fs) => decodeMessageFields fs ⟨""⟩
  | .wellFormed _ => none

/-- Fold the fields of a JSON object into a `SubscribeRequest`
(tags: `email`, `utm_source`, `utm_medium`, `referring_site`). -/
def decodeSubscribeFields : List (String × Json) → SubscribeRequest → Option SubscribeRequest
  | [], acc => some acc
  | (k, v) :: rest, acc =>
    if keyMatches k "email" then
      match v with
      | .str s => decodeSubscribeFields rest { acc with email := s }
      | .null => decodeSubscribeFields rest acc
      | _ => none
    else if keyMatches k "utm_source" then
      match v with
      | .str s => decodeSubscribeFields rest { acc with utm_source := s }
      | .null => decodeSubscribeFields rest acc
      | _ => none
    else if keyMatches k "utm_medium" then
      match v with
      | .str s => decodeSubscribeFields rest { acc with utm_medium := s }
      | .null => decodeSubscribeFields rest acc
      | _ => none
    else if keyMatches k "referring_site" then
      match v with
      | .str s => decodeSubscribeFields rest { acc with referring_site := s }
      | .null => decodeSubscribeFields rest acc
      | _ => none
    else
      decodeSubscribeFields rest acc

/-- `json.NewDecoder(r.Body).Decode(&req)` for a `SubscribeRequest`. -/
def decodeSubscribeRequest : Body → Option SubscribeRequest
  | .malformed => none
  | .wellFormed .null => some ⟨"", "", "", ""⟩
  | .wellFormed (.obj fs) => decodeSubscribeFields fs ⟨"", "", "", ""⟩
  | .wellFormed _ => none

/-- main.go line 48: the Telegram send-message URL. -/
def telegramURL (config : Config) : String :=
  "https://api.telegram.org/bot" ++ config.BotToken ++ "/sendMessage"

/-- main.go lines 50-54: the outbound notification struct. -/
def telegramMessageOf (config : Config) (message : String) : TelegramMessage :=
  { chat_id := config.ChatID, text := message, parse_mode := "HTML" }

/-- `json.Marshal` of a `TelegramMessage` (struct fields in order). -/
def marshalTelegramMessage (m : TelegramMessage) : Json :=
  .obj [("chat_id", .str m.chat_id), ("text", .str m.text), ("parse_mode", .str m.parse_mode)]

/-- The outbound request `http.Post` issues in `sendTelegramMessage`. -/
def sendTelegramCall (config : Config) (message : String) : OutboundCall :=
  { url := telegramURL config,
    headers := [("Content-Type", "application/json")],
    body := marshalTelegramMessage (telegramMessageOf config message) }

/-- main.go `sendTelegramMessage`, lines 47-76: a transport error or any
status other than `http.StatusOK` (200) is an error. -/
def sendTelegramMessage (config : Config) (message : String)
    (outcome : HttpOutcome) : Except String Unit :=
  match outcome with
  | .transportError e => .error ("error sending message: " ++ e)
  | .status code =>
    if code ≠ 200 then .error ("unexpected status code: " ++ toString code)
    else .ok ()

/-- main.go `handleSendMessage`, lines 78-102.  Returns the response
written to the caller and the outbound call issued, if any. -/
def handleSendMessage (config : Config) (method : String) (body : Body)
    (outcome : HttpOutcome) : HttpResponse × Option OutboundCall :=
  if method ≠ "POST" then
    (.plainError 405 "Method not allowed", none)
  else
    match decodeMessageRequest body with
    | none => (.jsonBody (.obj [("error", .str "Invalid request body")]), none)
    | some req =>
      if req.message = "" then
        (.jsonBody (.obj [("error", .str "Message cannot be empty")]), none)
      else
        match sendTelegramMessage config req.message outcome with
        | .error e =>
          (.jsonBody (.obj [("error", .str e)]), some (sendTelegramCall config req.message))
        | .ok _ =>
          (.jsonBody (.obj [("status", .str "Message sent successfully")]),
           some (sendTelegramCall config req.message))

/-- main.go lines 112-125: the Beehiiv payload map, `email` always,
each UTM key only when the inbound field is non-empty. -/
def beehiivPayload (req : SubscribeRequest) : List (String × Json) :=
  let p := [("email", Json.str req.email)]
  let p := if req.utm_source ≠ "" then p ++ [("utm_source", Json.str req.utm_source)] else p
  let p := if req.utm_medium ≠ "" then p ++ [("utm_medium", Json.str req.utm_medium)] else p
  let p := if req.referring_site ≠ "" then p ++ [("referring_site", Json.str req.referring_site)] else p
  p

/-- main.go line 110: the Beehiiv subscriptions URL. -/
def beehiivURL (publicationID : String) : String :=
  "https://api.beehiiv.com/v2/publications/" ++ publicationID ++ "/subscriptions"

/-- The outbound request `client.Do` issues in `subscribeToBeehiiv`. -/
def beehiivCall (publicationID apiKey : String) (req : SubscribeRequest) : OutboundCall :=
  { url := beehiivURL publicationID,
    headers := [("Content-Type", "application/json"), ("Authorization", "Bearer " ++ apiKey)],
    body := Json.obj (beehiivPayload req) }

/-- main.go `subscribeToBeehiiv`, lines 104-157: reads the publication
identifier, then (after building payload and request) the API key, both
from the environment at call time; a transport error or a status other
than 200/201 is an error. -/
def subscribeToBeehiiv (env : Env) (req : SubscribeRequest)
    (outcome : HttpOutcome) : Except String Unit × Option OutboundCall :=
  let publicationID := env "BEEHIIV_PUBLICATION_ID"
  if publicationID = "" then
    (.error "BEEHIIV_PUBLICATION_ID environment variable is required", none)
  else
    let apiKey := env "BEEHIIV_API_KEY"
    if apiKey = "" then
      (.error "BEEHIIV_API_KEY environment variable is required", none)
    else
      let call := beehiivCall publicationID apiKey req
      match outcome with
      | .transportError e => (.error ("error sending request: " ++ e), some call)
      | .status code =>
        if code ≠ 200 ∧ code ≠ 201 then
          (.error ("unexpected status code: " ++ toString code), some call)
        else
          (.ok (), some call)

/-- main.go `handleSubscribe`, lines 159-183. -/
def handleSubscribe (env : Env) (method : String) (body : Body)
    (outcome : HttpOutcome) : HttpResponse × Option OutboundCall :=
  if method ≠ "POST" then
    (.plainError 405 "Method not allowed", none)
  else
    match decodeSubscribeRequest body with
    | none => (.jsonBody (.obj [("error", .str "Invalid request body")]), none)
    | some req =>
      if req.email = "" then
        (.jsonBody (.obj [("error", .str "Email cannot be empty")]), none)
      else
        match subscribeToBeehiiv env req outcome with
        | (.error e, call) => (.jsonBody (.obj [("error", .str e)]), call)
        | (.ok _, call) =>
          (.jsonBody (.obj [("status", .str "Subscription successful")]), call)

/-- main.go `main`, lines 190-210: the startup reads the two Telegram
variables and is fatal (`log.Fatal`) when either is empty; nothing else
is validated at startup. -/
def mainStartup (env : Env) : Except String Config :=
  let botToken := env "TELEGRAM_BOT_TOKEN"
  let chatID := env "TELEGRAM_CHAT_ID"
  if botToken = "" ∨ chatID = "" then
    .error "TELEGRAM_BOT_TOKEN and TELEGRAM_CHAT_ID environment variables are required"
  else
    .ok { BotToken := botToken, ChatID := chatID }

/-- Did a forwarder call succeed? -/
def succeeds : Except String Unit → Bool
  | .ok _ => true
  | .error _ => false

/-- A sample startup configuration. -/
def cfgEx : Config := ⟨"tok", "chat42"⟩

/-- An environment with all four variables set. -/
def envEx : Env := fun k =>
  if k = "BEEHIIV_PUBLICATION_ID" then "pub1"
  else if k = "BEEHIIV_API_KEY" then "key1"
  else if k = "TELEGRAM_BOT_TOKEN" then "tok"
  else if k = "TELEGRAM_CHAT_ID" then "chat42"
  else ""

/-- An environment where only the publication identifier is set. -/
def envNoKey : Env := fun k =>
  if k = "BEEHIIV_PUBLICATION_ID" then "pub1" else ""

/-- An environment where the Beehiiv secrets are set but the Telegram
variables are not. -/
def envNoTelegram : Env := fun k =>
  if k = "BEEHIIV_PUBLICATION_ID" then "pub1"
  else if k = "BEEHIIV_API_KEY" then "key1"
  else ""

/-- An environment with nothing set. -/
def envEmpty : Env := fun _ => ""

/-- A sample subscription request with no attribution fields. -/
def reqEx : SubscribeRequest := ⟨"a@b.com", "", "", ""⟩

/-- Claim C1: for /send, exactly outbound status 200 is success and any
other status (201 included) is a failure mapped to an ErrorResponse;
for /subscribe, outbound status 200 or 201 is success and every other
status is failure. -/
theorem C1_status_asymmetry (config : Config) (message : String) (env : Env)
    (req : SubscribeRequest) (code : ℕ)
    (hpub : env "BEEHIIV_PUBLICATION_ID" ≠ "") (hkey : env "BEEHIIV_API_KEY" ≠ "") :
    (succeeds (sendTelegramMessage config message (.status code)) = true ↔ code = 200) ∧
    (succeeds (subscribeToBeehiiv env req (.status code)).1 = true ↔ code = 200 ∨ code = 201) ∧
    (code ≠ 200 →
      handleSendMessage config "POST" (.wellFormed (.obj [("message", .str "x")])) (.status code)
        = (.jsonBody (.obj [("error", .str ("unexpected status code: " ++ toString code))]),
           some (sendTelegramCall config "x"))) := by
  refine ⟨?_, ?_, ?_⟩
  · by_cases h : code = 200 <;> simp [sendTelegramMessage, succeeds, h]
  · by_cases h1 : code = 200 <;> by_cases h2 : code = 201 <;>
      simp [subscribeToBeehiiv, succeeds, hpub, hkey, h1, h2]
  · intro h
    have hd : decodeMessageRequest (.wellFormed (.obj [("message", .str "x")]))
        = some ⟨"x"⟩ := rfl
    simp [handleSendMessage, hd, sendTelegramMessage, h]

/-- Witness for C1 at outbound status 201. -/
theorem C1_status_asymmetry_witness :
    (succeeds (sendTelegramMessage cfgEx "hi" (.status 201)) = true ↔ 201 = 200) ∧
    (succeeds (subscribeToBeehiiv envEx reqEx (.status 201)).1 = true ↔ 201 = 200 ∨ 201 = 201) ∧
    (201 ≠ 200 →
      handleSendMessage cfgEx "POST" (.wellFormed (.obj [("message", .str "x")])) (.status 201)
        = (.jsonBody (.obj [("error", .str ("unexpected status code: " ++ toString 201))]),
           some (sendTelegramCall cfgEx "x"))) :=
  C1_status_asymmetry cfgEx "hi" envEx reqEx 201 (by decide) (by decide)

/-- Claim C3: an empty message on /send yields exactly the
"Message cannot be empty" error body and no outbound call; an empty
email on /subscribe yields exactly the "Email cannot be empty" error
body and no outbound call. -/
theorem C3_empty_field_rejection (config : Config) (env : Env) (outcome : HttpOutcome)
    (bodyM bodyS : Body) (mreq : MessageRequest) (sreq : SubscribeRequest)
    (hm : decodeMessageRequest bodyM = some mreq) (hm0 : mreq.message = "")
    (hs : decodeSubscribeRequest bodyS = some sreq) (hs0 : sreq.email = "") :
    handleSendMessage config "POST" bodyM outcome
      = (.jsonBody (.obj [("error", .str "Message cannot be empty")]), none) ∧
    handleSubscribe env "POST" bodyS outcome
      = (.jsonBody (.obj [("error", .str "Email cannot be empty")]), none) := by
  constructor
  · simp [handleSendMessage, hm, hm0]
  · simp [handleSubscribe, hs, hs0]

/-- Witness for C3 at concrete empty-field bodies. -/
theorem C3_empty_field_rejection_witness :
    handleSendMessage cfgEx "POST" (.wellFormed (.obj [("message", .str "")])) (.status 200)
      = (.jsonBody (.obj [("error", .str "Message cannot be empty")]), none) ∧
    handleSubscribe envEx "POST" (.wellFormed (.obj [("email", .str "")])) (.status 200)
      = (.jsonBody (.obj [("error", .str "Email cannot be empty")]), none) :=
  C3_empty_field_rejection cfgEx envEx (.status 200)
    (.wellFormed (.obj [("message", .str "")]))
    (.wellFormed (.obj [("email", .str "")]))
    ⟨""⟩ ⟨"", "", "", ""⟩ rfl rfl rfl rfl

/-- Claim C4: a body that cannot be decoded yields the JSON body
ErrorResponse "Invalid request body" written with HTTP status 200 on
both endpoints, and no outbound call occurs. -/
theorem C4_invalid_body (config : Config) (env : Env) (outcome : HttpOutcome)
    (bodyM bodyS : Body)
    (hm : decodeMessageRequest bodyM = none)
    (hs : decodeSubscribeRequest bodyS = none) :
    handleSendMessage config "POST" bodyM outcome
      = (.jsonBody (.obj [("error", .str "Invalid request body")]), none) ∧
    (handleSendMessage config "POST" bodyM outcome).1.statusCode = 200 ∧
    handleSubscribe env "POST" bodyS outcome
      = (.jsonBody (.obj [("error", .str "Invalid request body")]), none) ∧
    (handleSubscribe env "POST" bodyS outcome).1.statusCode = 200 := by
  have h1 : handleSendMessage config "POST" bodyM outcome
      = (.jsonBody (.obj [("error", .str "Invalid request body")]), none) := by
    simp [handleSendMessage, hm]
  have h2 : handleSubscribe env "POST" bodyS outcome
      = (.jsonBody (.obj [("error", .str "Invalid request body")]), none) := by
    simp [handleSubscribe, hs]
  exact ⟨h1, by rw [h1]; rfl, h2, by rw [h2]; rfl⟩

/-- Witness for C4 at an undecodable body. -/
theorem C4_invalid_body_witness :
    handleSendMessage cfgEx "POST" Body.malformed (.status 200)
      = (.jsonBody (.obj [("error", .str "Invalid request body")]), none) ∧
    (handleSendMessage cfgEx "POST" Body.malformed (.status 200)).1.statusCode = 200 ∧
    handleSubscribe envEx "POST" Body.malformed (.status 200)
      = (.jsonBody (.obj [("error", .str "Invalid request body")]), none) ∧
    (handleSubscribe envEx "POST" Body.malformed (.status 200)).1.statusCode = 200 :=
  C4_invalid_body cfgEx envEx (.status 200) Body.malformed Body.malformed rfl rfl

/-- Claim C6: a non-POST request on either endpoint gets the plain-text
"Method not allowed" response with status 405 (not a JSON body), for
every request body and outbound outcome, so no decoding, validation, or
outbound call happens. -/
theorem C6_method_not_allowed (config : Config) (env : Env) (bodyM bodyS : Body)
    (outcome : HttpOutcome) (method : String) (h : method ≠ "POST") :
    handleSendMessage config method bodyM outcome
      = (.plainError 405 "Method not allowed", none) ∧
    handleSubscribe env method bodyS outcome
      = (.plainError 405 "Method not allowed", none) := by
  constructor
  · simp [handleSendMessage, h]
  · simp [handleSubscribe, h]

/-- Witness for C6 at method GET with an undecodable body. -/
theorem C6_method_not_allowed_witness :
    handleSendMessage cfgEx "GET" Body.malformed (.status 200)
      = (.plainError 405 "Method not allowed", none) ∧
    handleSubscribe envEx "GET" Body.malformed (.status 200)
      = (.plainError 405 "Method not allowed", none) :=
  C6_method_not_allowed cfgEx envEx Body.malformed Body.malformed (.status 200) "GET" (by decide)

/-- Claim C2: for a /subscribe request with non-empty email, the outbound
payload always carries the "email" key with the inbound value, carries
each UTM key exactly when the corresponding inbound field is non-empty,
and with all attribution fields empty it is exactly the one-key email
object. -/
theorem C2_beehiiv_payload (req : SubscribeRequest) (h : req.email ≠ "") :
    ("email", Json.str req.email) ∈ beehiivPayload req ∧
    ((∃ v, ("utm_source", v) ∈ beehiivPayload req) ↔ req.utm_source ≠ "") ∧
    ((∃ v, ("utm_medium", v) ∈ beehiivPayload req) ↔ req.utm_medium ≠ "") ∧
    ((∃ v, ("referring_site", v) ∈ beehiivPayload req) ↔ req.referring_site ≠ "") ∧
    (req.utm_source = "" → req.utm_medium = "" → req.referring_site = "" →
      beehiivPayload req = [("email", Json.str req.email)]) := by
  unfold beehiivPayload
  by_cases h1 : req.utm_source = "" <;> by_cases h2 : req.utm_medium = "" <;>
    by_cases h3 : req.referring_site = "" <;>
      simp [h1, h2, h3]

/-- Witness for C2 at a request with email only. -/
theorem C2_beehiiv_payload_witness :
    ("email", Json.str reqEx.email) ∈ beehiivPayload reqEx ∧
    ((∃ v, ("utm_source", v) ∈ beehiivPayload reqEx) ↔ reqEx.utm_source ≠ "") ∧
    ((∃ v, ("utm_medium", v) ∈ beehiivPayload reqEx) ↔ reqEx.utm_medium ≠ "") ∧
    ((∃ v, ("referring_site", v) ∈ beehiivPayload reqEx) ↔ reqEx.referring_site ≠ "") ∧
    (reqEx.utm_source = "" → reqEx.utm_medium = "" → reqEx.referring_site = "" →
      beehiivPayload reqEx = [("email", Json.str reqEx.email)]) :=
  C2_beehiiv_payload reqEx (by decide)

/-- Claim C5: the Beehiiv secrets are read per call, not at startup: with
`BEEHIIV_API_KEY` unset a valid /subscribe call returns the error body
naming that variable (and no crash — the handler returns normally), while
startup depends only on the two Telegram variables and is fatal exactly
when one of them is empty. -/
theorem C5_env_read_at_call_time (env envA envB : Env) (body : Body)
    (outcome : HttpOutcome) (req : SubscribeRequest)
    (hkey : env "BEEHIIV_API_KEY" = "") (hpub : env "BEEHIIV_PUBLICATION_ID" ≠ "")
    (hdec : decodeSubscribeRequest body = some req) (hemail : req.email ≠ "")
    (hbt : envA "TELEGRAM_BOT_TOKEN" = envB "TELEGRAM_BOT_TOKEN")
    (hci : envA "TELEGRAM_CHAT_ID" = envB "TELEGRAM_CHAT_ID") :
    handleSubscribe env "POST" body outcome
      = (.jsonBody (.obj [("error",
          .str "BEEHIIV_API_KEY environment variable is required")]), none) ∧
    mainStartup envA = mainStartup envB ∧
    ((∃ e, mainStartup envA = .error e) ↔
      envA "TELEGRAM_BOT_TOKEN" = "" ∨ envA "TELEGRAM_CHAT_ID" = "") := by
  refine ⟨?_, ?_, ?_⟩
  · simp [handleSubscribe, hdec, hemail, subscribeToBeehiiv, hpub, hkey]
  · simp only [mainStartup, hbt, hci]
  · by_cases hb : envA "TELEGRAM_BOT_TOKEN" = "" <;>
      by_cases hc : envA "TELEGRAM_CHAT_ID" = "" <;>
        simp [mainStartup, hb, hc]

/-- Witness for C5: key missing at call time is a handler-level error,
startup ignores the Beehiiv variables, and startup with the Telegram
variables missing is fatal. -/
theorem C5_env_read_at_call_time_witness :
    handleSubscribe envNoKey "POST" (.wellFormed (.obj [("email", .str "a@b.com")])) (.status 200)
      = (.jsonBody (.obj [("error",
          .str "BEEHIIV_API_KEY environment variable is required")]), none) ∧
    mainStartup envNoKey = mainStartup envNoTelegram ∧
    ((∃ e, mainStartup envNoKey = .error e) ↔
      envNoKey "TELEGRAM_BOT_TOKEN" = "" ∨ envNoKey "TELEGRAM_CHAT_ID" = "") :=
  C5_env_read_at_call_time envNoKey envNoKey envNoTelegram
    (.wellFormed (.obj [("email", .str "a@b.com")])) (.status 200)
    ⟨"a@b.com", "", "", ""⟩ rfl (by decide) rfl (by decide) rfl rfl

/-- Claim C7: for a valid /send input the outbound notification is
chat_id = configured chat, text = the inbound message verbatim,
parse_mode = the constant "HTML", serialized to JSON and POSTed to
the Telegram URL derived from the bot token with content-type
application/json; on outbound status 200 the caller gets exactly the
"Message sent successfully" status body. -/
theorem C7_send_derivation (config : Config) (body : Body) (req : MessageRequest)
    (hdec : decodeMessageRequest body = some req) (hmsg : req.message ≠ "") :
    telegramMessageOf config req.message
      = ⟨config.ChatID, req.message, "HTML"⟩ ∧
    sendTelegramCall config req.message
      = { url := "https://api.telegram.org/bot" ++ config.BotToken ++ "/sendMessage",
          headers := [("Content-Type", "application/json")],
          body := .obj [("chat_id", .str config.ChatID), ("text", .str req.message),
                        ("parse_mode", .str "HTML")] } ∧
    handleSendMessage config "POST" body (.status 200)
      = (.jsonBody (.obj [("status", .str "Message sent successfully")]),
         some (sendTelegramCall config req.message)) := by
  refine ⟨rfl, rfl, ?_⟩
  simp [handleSendMessage, hdec, hmsg, sendTelegramMessage]

/-- Witness for C7 at a concrete message. -/
theorem C7_send_derivation_witness :
    telegramMessageOf cfgEx "hello"
      = ⟨cfgEx.ChatID, "hello", "HTML"⟩ ∧
    sendTelegramCall cfgEx "hello"
      = { url := "https://api.telegram.org/bot" ++ cfgEx.BotToken ++ "/sendMessage",
          headers := [("Content-Type", "application/json")],
          body := .obj [("chat_id", .str cfgEx.ChatID), ("text", .str "hello"),
                        ("parse_mode", .str "HTML")] } ∧
    handleSendMessage cfgEx "POST" (.wellFormed (.obj [("message", .str "hello")])) (.status 200)
      = (.jsonBody (.obj [("status", .str "Message sent successfully")]),
         some (sendTelegramCall cfgEx "hello")) :=
  C7_send_derivation cfgEx (.wellFormed (.obj [("message", .str "hello")])) ⟨"hello"⟩
    rfl (by decide)

/-- Folding object fields none of which matches `message` leaves the
accumulated `MessageRequest` unchanged. -/
theorem decodeMessageFields_skip (fs : List (String × Json)) (acc : MessageRequest)
    (h : ∀ kv ∈ fs, keyMatches kv.1 "message" = false) :
    decodeMessageFields fs acc = some acc := by
  induction fs with
  | nil => rfl
  | cons kv rest ih =>
    have hk := h kv (List.mem_cons_self kv rest)
    simp only [decodeMessageFields, hk, Bool.false_eq_true, if_false]
    exact ih fun p hp => h p (List.mem_cons_of_mem kv hp)

/-- Folding object fields none of which matches any `SubscribeRequest`
tag leaves the accumulated request unchanged. -/
theorem decodeSubscribeFields_skip (fs : List (String × Json)) (acc : SubscribeRequest)
    (h : ∀ kv ∈ fs, keyMatches kv.1 "email" = false ∧ keyMatches kv.1 "utm_source" = false ∧
      keyMatches kv.1 "utm_medium" = false ∧ keyMatches kv.1 "referring_site" = false) :
    decodeSubscribeFields fs acc = some acc := by
  induction fs with
  | nil => rfl
  | cons kv rest ih =>
    obtain ⟨h1, h2, h3, h4⟩ := h kv (List.mem_cons_self kv rest)
    simp only [decodeSubscribeFields, h1, h2, h3, h4, Bool.false_eq_true, if_false]
    exact ih fun p hp => h p (List.mem_cons_of_mem kv hp)

/-- Claim C8: a well-formed body that omits the required field — `null`,
the empty object, or an object of only unknown keys (which are ignored) —
decodes successfully, so both endpoints answer with the empty-field
validation error, never with "Invalid request body". -/
theorem C8_omitted_field_validation (config : Config) (env : Env) (outcome : HttpOutcome)
    (fs gs : List (String × Json))
    (hf : ∀ kv ∈ fs, keyMatches kv.1 "message" = false)
    (hg : ∀ kv ∈ gs, keyMatches kv.1 "email" = false ∧ keyMatches kv.1 "utm_source" = false ∧
      keyMatches kv.1 "utm_medium" = false ∧ keyMatches kv.1 "referring_site" = false) :
    handleSendMessage config "POST" (.wellFormed .null) outcome
      = (.jsonBody (.obj [("error", .str "Message cannot be empty")]), none) ∧
    handleSendMessage config "POST" (.wellFormed (.obj [])) outcome
      = (.jsonBody (.obj [("error", .str "Message cannot be empty")]), none) ∧
    handleSendMessage config "POST" (.wellFormed (.obj fs)) outcome
      = (.jsonBody (.obj [("error", .str "Message cannot be empty")]), none) ∧
    handleSubscribe env "POST" (.wellFormed .null) outcome
      = (.jsonBody (.obj [("error", .str "Email cannot be empty")]), none) ∧
    handleSubscribe env "POST" (.wellFormed (.obj [])) outcome
      = (.jsonBody (.obj [("error", .str "Email cannot be empty")]), none) ∧
    handleSubscribe env "POST" (.wellFormed (.obj gs)) outcome
      = (.jsonBody (.obj [("error", .str "Email cannot be empty")]), none) := by
  have hfs : decodeMessageRequest (.wellFormed (.obj fs)) = some ⟨""⟩ :=
    decodeMessageFields_skip fs ⟨""⟩ hf
  have hgs : decodeSubscribeRequest (.wellFormed (.obj gs)) = some ⟨"", "", "", ""⟩ :=
    decodeSubscribeFields_skip gs ⟨"", "", "", ""⟩ hg
  refine ⟨?_, ?_, ?_, ?_, ?_, ?_⟩
  · simp [handleSendMessage, decodeMessageRequest]
  · simp [handleSendMessage, decodeMessageRequest, decodeMessageFields]
  · simp [handleSendMessage, hfs]
  · simp [handleSubscribe, decodeSubscribeRequest]
  · simp [handleSubscribe, decodeSubscribeRequest, decodeSubscribeFields]
  · simp [handleSubscribe, hgs]

/-- Witness for C8 at objects holding only unknown keys. -/
theorem C8_omitted_field_validation_witness :
    handleSendMessage cfgEx "POST" (.wellFormed .null) (.status 200)
      = (.jsonBody (.obj [("error", .str "Message cannot be empty")]), none) ∧
    handleSendMessage cfgEx "POST" (.wellFormed (.obj [])) (.status 200)
      = (.jsonBody (.obj [("error", .str "Message cannot be empty")]), none) ∧
    handleSendMessage cfgEx "POST" (.wellFormed (.obj [("foo", .str "x")])) (.status 200)
      = (.jsonBody (.obj [("error", .str "Message cannot be empty")]), none) ∧
    handleSubscribe envEx "POST" (.wellFormed .null) (.status 200)
      = (.jsonBody (.obj [("error", .str "Email cannot be empty")]), none) ∧
    handleSubscribe envEx "POST" (.wellFormed (.obj [])) (.status 200)
      = (.jsonBody (.obj [("error", .str "Email cannot be empty")]), none) ∧
    handleSubscribe envEx "POST" (.wellFormed (.obj [("bar", .null)])) (.status 200)
      = (.jsonBody (.obj [("error", .str "Email cannot be empty")]), none) :=
  C8_omitted_field_validation cfgEx envEx (.status 200)
    [("foo", .str "x")] [("bar", .null)]
    (by decide) (by decide)

/-- Claim C9: `BEEHIIV_PUBLICATION_ID` is checked before the API key is
read — with both secrets missing the error names only the publication
identifier — and whenever either secret is missing the function returns
with no outbound call issued. -/
theorem C9_publication_checked_first (env envA : Env) (req reqA : SubscribeRequest)
    (outcome outcomeA : HttpOutcome)
    (h1 : env "BEEHIIV_PUBLICATION_ID" = "")
    (h2 : env "BEEHIIV_API_KEY" = "")
    (h3 : envA "BEEHIIV_PUBLICATION_ID" = "" ∨ envA "BEEHIIV_API_KEY" = "") :
    subscribeToBeehiiv env req outcome
      = (.error "BEEHIIV_PUBLICATION_ID environment variable is required", none) ∧
    (subscribeToBeehiiv envA reqA outcomeA).2 = none := by
  constructor
  · simp [subscribeToBeehiiv, h1]
  · rcases h3 with h | h
    · simp [subscribeToBeehiiv, h]
    · by_cases hp : envA "BEEHIIV_PUBLICATION_ID" = "" <;>
        simp [subscribeToBeehiiv, hp, h]

/-- Witness for C9 at the empty environment. -/
theorem C9_publication_checked_first_witness :
    subscribeToBeehiiv envEmpty reqEx (.status 200)
      = (.error "BEEHIIV_PUBLICATION_ID environment variable is required", none) ∧
    (subscribeToBeehiiv envNoKey reqEx (.status 200)).2 = none :=
  C9_publication_checked_first envEmpty envNoKey reqEx reqEx (.status 200) (.status 200)
    rfl rfl (Or.inr rfl)

/-- Claim C10: the emptiness checks are exact equality with `""`: any
non-empty message or email — whitespace included — passes validation and
the outbound call is issued with the value verbatim, with no trimming,
length limit, or format validation. -/
theorem C10_no_trimming (config : Config) (env : Env) (outcome : HttpOutcome)
    (s e : String) (hs : s ≠ "") (he : e ≠ "")
    (hpub : env "BEEHIIV_PUBLICATION_ID" ≠ "") (hkey : env "BEEHIIV_API_KEY" ≠ "") :
    (handleSendMessage config "POST" (.wellFormed (.obj [("message", .str s)])) outcome).2
      = some (sendTelegramCall config s) ∧
    (sendTelegramCall config s).body
      = .obj [("chat_id", .str config.ChatID), ("text", .str s), ("parse_mode", .str "HTML")] ∧
    (handleSubscribe env "POST" (.wellFormed (.obj [("email", .str e)])) outcome).2
      = some (beehiivCall (env "BEEHIIV_PUBLICATION_ID") (env "BEEHIIV_API_KEY") ⟨e, "", "", ""⟩) ∧
    (beehiivCall (env "BEEHIIV_PUBLICATION_ID") (env "BEEHIIV_API_KEY") ⟨e, "", "", ""⟩).body
      = .obj [("email", .str e)] := by
  have hd : decodeMessageRequest (.wellFormed (.obj [("message", .str s)])) = some ⟨s⟩ := rfl
  have he2 : decodeSubscribeRequest (.wellFormed (.obj [("email", .str e)]))
      = some ⟨e, "", "", ""⟩ := rfl
  refine ⟨?_, rfl, ?_, ?_⟩
  · cases outcome with
    | transportError m => simp [handleSendMessage, hd, hs, sendTelegramMessage]
    | status code =>
      by_cases hc : code = 200 <;> simp [handleSendMessage, hd, hs, sendTelegramMessage, hc]
  · cases outcome with
    | transportError m =>
      simp [handleSubscribe, he2, he, subscribeToBeehiiv, hpub, hkey]
    | status code =>
      by_cases hc : code = 200 <;> by_cases hc' : code = 201 <;>
        simp [handleSubscribe, he2, he, subscribeToBeehiiv, hpub, hkey, hc, hc']
  · simp [beehiivCall, beehiivPayload]

/-- Witness for C10 at the one-space message and email. -/
theorem C10_no_trimming_witness :
    (handleSendMessage cfgEx "POST" (.wellFormed (.obj [("message", .str " ")])) (.status 200)).2
      = some (sendTelegramCall cfgEx " ") ∧
    (sendTelegramCall cfgEx " ").body
      = .obj [("chat_id", .str cfgEx.ChatID), ("text", .str " "), ("parse_mode", .str "HTML")] ∧
    (handleSubscribe envEx "POST" (.wellFormed (.obj [("email", .str " ")])) (.status 200)).2
      = some (beehiivCall (envEx "BEEHIIV_PUBLICATION_ID") (envEx "BEEHIIV_API_KEY") ⟨" ", "", "", ""⟩) ∧
    (beehiivCall (envEx "BEEHIIV_PUBLICATION_ID") (envEx "BEEHIIV_API_KEY") ⟨" ", "", "", ""⟩).body
      = .obj [("email", .str " ")] :=
  C10_no_trimming cfgEx envEx (.status 200) " " " "
    (by decide) (by decide) (by decide) (by decide)

end Api
